import Mathlib

/-!
Verification of the sonar-detection prediction service (`src/app.py`).

The service is a Flask app with four JSON endpoints.  We embed the request
handlers shallowly: request bodies become an inductive `Json` type (Python's
`json.loads` output, which also admits `Infinity`/`NaN` literals), Python
floats become a `PyFloat` type over exact rationals, the opaque pickled
classifier becomes an abstract `Model` structure, and each handler becomes a
total Lean function returning a structured response.  Exceptions raised inside
the handler's `try:` block are threaded through `Except PyErr` and mapped to
responses by the `except` clauses, exactly as in the source.
-/

namespace Sonar

/-- Python exceptions that the `predict` handler can raise internally.
`valueError` is caught by the first `except ValueError` clause; everything
else falls to the generic `except Exception` clause. -/
inductive PyErr where
  | valueError
  | typeError
  | keyError
deriving DecidableEq, Repr

/-- A Python float, modelled exactly: a finite rational, a signed infinity,
or NaN.  (Real doubles are binary; the claims we check are robust to that,
and exact rationals keep every arithmetic step faithful to the decimal
literals in the source.) -/
inductive PyFloat where
  | finite (q : ℚ)
  | inf (neg : Bool)
  | nan
deriving DecidableEq, Repr

/-- A parsed JSON value as produced by Python's `json.loads` (hence also the
non-standard `Infinity`, `-Infinity` and `NaN` tokens, which `json.loads`
accepts by default).  `null` doubles as the `None` that
`request.get_json()` yields for a JSON `null` body. -/
inductive Json where
  | null
  | bool (b : Bool)
  | num (q : ℚ)
  | inf (neg : Bool)
  | nan
  | str (s : String)
  | arr (xs : List Json)
  | obj (kvs : List (String × Json))

/-- Python truthiness of a parsed JSON value (`if not data`). -/
def pyTruthy : Json → Bool
  | .null => false
  | .bool b => b
  | .num q => q ≠ 0
  | .inf _ => true
  | .nan => true
  | .str s => s ≠ ""
  | .arr xs => !xs.isEmpty
  | .obj kvs => !kvs.isEmpty

/-- Whether `needle` occurs as a contiguous substring of the character
list (Python's `in` on strings). -/
def listHasSub (needle : List Char) : List Char → Bool
  | [] => needle.isEmpty
  | c :: rest => needle.isPrefixOf (c :: rest) || listHasSub needle rest

/-- Whether a JSON value equals the string `k` (the element comparison
Python's `in` performs on a list, specialised to a string key). -/
def jsonIsStr (k : String) : Json → Bool
  | .str s => s == k
  | _ => false

/-- Python `k in data` for a parsed JSON value: key membership for objects,
element membership for arrays, substring for strings; `TypeError` for
non-containers. -/
def pyContainsKey (k : String) : Json → Except PyErr Bool
  | .obj kvs => .ok (kvs.any (fun p => p.1 == k))
  | .arr xs => .ok (xs.any (jsonIsStr k))
  | .str s => .ok (listHasSub k.toList s.toList)
  | _ => .error .typeError

/-- Python `data[k]`: dictionary lookup (`json.loads` keeps the last of any
duplicate keys, hence the `reverse`), `KeyError` when absent, `TypeError`
on non-dictionaries. -/
def pyGetItem (j : Json) (k : String) : Except PyErr Json :=
  match j with
  | .obj kvs =>
      match List.lookup k kvs.reverse with
      | some v => .ok v
      | none => .error .keyError
  | _ => .error .typeError

/-- Python `len(...)` on a parsed JSON value; numbers, booleans, `None` and
non-finite floats have no length and raise `TypeError`. -/
def pyLen : Json → Except PyErr ℕ
  | .arr xs => .ok xs.length
  | .str s => .ok s.length
  | .obj kvs => .ok kvs.length
  | _ => .error .typeError

/-- Whether a parsed JSON value supports `len(...)` (is a sized value). -/
def pyHasLen : Json → Bool
  | .arr _ => true
  | .str _ => true
  | .obj _ => true
  | _ => false

/-- Digits-to-number accumulator for the float parser. -/
def natOfDigits (cs : List Char) : ℕ :=
  cs.foldl (fun a c => 10 * a + (c.toNat - 48)) 0

/-- Split a character list at the first occurrence of `c`, if any. -/
def splitFirst (c : Char) : List Char → Option (List Char × List Char)
  | [] => none
  | x :: xs =>
      if x = c then some ([], xs)
      else match splitFirst c xs with
        | some (l, r) => some (x :: l, r)
        | none => none

/-- Mantissa of a decimal literal: `digits`, `digits.digits`, `digits.`
or `.digits`. -/
def parseMantissa (cs : List Char) : Option ℚ :=
  match splitFirst '.' cs with
  | none =>
      if cs ≠ [] ∧ cs.all Char.isDigit then some (natOfDigits cs : ℚ) else none
  | some (ip, fp) =>
      if (ip ≠ [] ∨ fp ≠ []) ∧ ip.all Char.isDigit ∧ fp.all Char.isDigit then
        some ((natOfDigits ip : ℚ) + (natOfDigits fp : ℚ) / 10 ^ fp.length)
      else none

/-- Exponent part of a decimal literal: optional sign then digits. -/
def parseExpPart : List Char → Option ℤ
  | '+' :: r => if r ≠ [] ∧ r.all Char.isDigit then some (natOfDigits r : ℤ) else none
  | '-' :: r => if r ≠ [] ∧ r.all Char.isDigit then some (-(natOfDigits r : ℤ)) else none
  | r => if r ≠ [] ∧ r.all Char.isDigit then some (natOfDigits r : ℤ) else none

/-- An unsigned decimal literal with optional exponent, as accepted by
Python's `float(...)` (ASCII digits; underscore separators are not
modelled — no claim involves them). -/
def parseDecString (cs : List Char) : Option ℚ :=
  match splitFirst 'e' cs with
  | none => parseMantissa cs
  | some (m, ex) => do
      let q ← parseMantissa m
      let e ← parseExpPart ex
      pure (q * (10 : ℚ) ^ e)

/-- ASCII lowercase conversion (Python `str.lower` restricted to ASCII; the
keywords this service compares against are all ASCII). -/
def charLower (c : Char) : Char :=
  if 'A' ≤ c ∧ c ≤ 'Z' then Char.ofNat (c.toNat + 32) else c

/-- Python `s.lower()` (ASCII model). -/
def pyLower (s : String) : String := String.mk (s.data.map charLower)

/-- Strip leading and trailing whitespace, as `float(s)` does. -/
def trimChars (cs : List Char) : List Char :=
  ((cs.dropWhile Char.isWhitespace).reverse.dropWhile Char.isWhitespace).reverse

/-- Python `float(s)` on a string: strip whitespace, optional sign, then a
decimal literal or the case-insensitive words `inf`, `infinity`, `nan`.
`none` models the `ValueError` Python raises. -/
def parseFloatStr (s : String) : Option PyFloat :=
  let t := trimChars s.data
  let (neg, u) :=
    match t with
    | '-' :: r => (true, r.map charLower)
    | '+' :: r => (false, r.map charLower)
    | r => (false, r.map charLower)
  if u = ['i', 'n', 'f'] ∨ u = ['i', 'n', 'f', 'i', 'n', 'i', 't', 'y'] then some (.inf neg)
  else if u = ['n', 'a', 'n'] then some PyFloat.nan
  else
    match parseDecString u with
    | some q => some (.finite (if neg then -q else q))
    | none => none

/-- Conversion of one scalar leaf to a float, as `np.asarray(...,
dtype=float)` performs it on each non-sequence position: numbers, booleans
and non-finite floats convert; `None` becomes NaN (numpy's behaviour);
strings go through `float(s)` and raise `ValueError` on failure; a
dictionary raises `TypeError` (`float()` argument must be a string or a
number).  A list never reaches leaf conversion — shape discovery consumes
it first (see `npShape`/`npLeaves`); the branch is kept total as Python's
scalar `float(...)`, which raises `TypeError` on a list. -/
def pyFloatOfJson : Json → Except PyErr PyFloat
  | .num q => .ok (.finite q)
  | .inf n => .ok (.inf n)
  | .nan => .ok PyFloat.nan
  | .bool b => .ok (.finite (if b then 1 else 0))
  | .null => .ok PyFloat.nan
  | .str s =>
      match parseFloatStr s with
      | some f => .ok f
      | none => .error .valueError
  | .arr _ => .error .typeError
  | .obj _ => .error .typeError

/-- Whether numpy's shape discovery treats a parsed JSON value as a scalar
(everything except a list counts as a 0-d element, dictionaries and strings
included). -/
def jsonScalar : Json → Bool
  | .arr _ => false
  | _ => true

mutual

/-- numpy's shape discovery for `np.asarray(..., dtype=float)`: a list of
children with one common shape `s` has shape `len :: s` (an empty list has
shape `[0]`); children of differing shapes make the input inhomogeneous and
raise `ValueError` ("setting an array element with a sequence" /
"inhomogeneous shape"); every non-list value is a 0-d scalar. -/
def npShape : Json → Except PyErr (List ℕ)
  | .arr xs =>
      (match npShapeList xs with
       | .error e => .error e
       | .ok [] => .ok [0]
       | .ok (s :: rest) =>
           if rest.all (fun t => t == s) then .ok (xs.length :: s)
           else .error .valueError)
  | _ => .ok []

/-- Shapes of the elements of a list, left to right, propagating the first
failure. -/
def npShapeList : List Json → Except PyErr (List (List ℕ))
  | [] => .ok []
  | x :: xs =>
      (match npShape x with
       | .error e => .error e
       | .ok s =>
           match npShapeList xs with
           | .error e => .error e
           | .ok ss => .ok (s :: ss))

end

mutual

/-- The scalar leaves of a (possibly nested) value in row-major order —
the element sequence `reshape(1, -1)` presents to the model. -/
def npLeaves : Json → List Json
  | .arr xs => npLeavesList xs
  | j => [j]

/-- Concatenated leaves of a list of values. -/
def npLeavesList : List Json → List Json
  | [] => []
  | x :: xs => npLeaves x ++ npLeavesList xs

end

/-- `np.asarray(features, dtype=float)` followed by `reshape(1, -1)`,
flattened to the element list the model receives: shape discovery first
(raising `ValueError` on inhomogeneous nesting, succeeding on any
homogeneous one, e.g. sixty `[0.5]` singletons give a (60,1) array), then
conversion of each scalar leaf in row-major order. -/
def npAsarrayFloat (j : Json) : Except PyErr (List PyFloat) :=
  match npShape j with
  | .error e => .error e
  | .ok _ => (npLeaves j).mapM pyFloatOfJson

/-- The opaque pickled classifier (`sonar_model.pkl` is not part of the
source tree).  `predictLabel v` is `str(model.predict(x)[0])` and
`predictProba v` is the pair `(proba[0][0], proba[0][1])` from
`model.predict_proba(x)`. -/
structure Model where
  predictLabel : List PyFloat → String
  predictProba : List PyFloat → ℚ × ℚ

/-- Round-half-to-even to an integer, Python's rounding mode. -/
def roundHalfEven (q : ℚ) : ℤ :=
  if q - ⌊q⌋ < 1 / 2 then ⌊q⌋
  else if 1 / 2 < q - ⌊q⌋ then ⌊q⌋ + 1
  else if ⌊q⌋ % 2 = 0 then ⌊q⌋ else ⌊q⌋ + 1

/-- Python `round(x, 2)` over exact rationals: round to the nearest
multiple of 1/100, ties to even. -/
def pyRound2 (x : ℚ) : ℚ := (roundHalfEven (x * 100) : ℚ) / 100

/-- The confidence object of a successful prediction response. -/
structure Confidence where
  rock : ℚ
  mine : ℚ
deriving DecidableEq, Repr

/-- The body of a successful prediction response (`result` in the source). -/
structure PredictResult where
  prediction : String
  prediction_label : String
  confidence : Confidence
  message : String
deriving DecidableEq, Repr

/-- A response from the `/api/predict` endpoint: either a success body with
its status code, or an error body `{error, message}` with its status code. -/
inductive Resp where
  | ok (status : ℕ) (result : PredictResult)
  | err (status : ℕ) (error : String) (message : String)
deriving DecidableEq, Repr

/-- Status code of a response. -/
def Resp.status : Resp → ℕ
  | .ok s _ => s
  | .err s _ _ => s

/-- Rendering of `str(e)` for the generic `except Exception` clause.  The
exact text is runtime-dependent; no claim inspects it, only the `error`
tag and status. -/
def pyErrStr : PyErr → String
  | .valueError => "ValueError"
  | .typeError => "TypeError"
  | .keyError => "KeyError"

/-- The body of the `try:` block of `predict` (src/app.py lines 53-99),
with early `return`s as `.ok` responses and raised exceptions as
`.error`.  `data` is the already-parsed body from `request.get_json()`. -/
def predictTry (model : Option Model) (data : Json) : Except PyErr Resp :=
  match (if pyTruthy data then pyContainsKey "features" data else .ok false) with
  | .error e => .error e
  | .ok hasF =>
    if !hasF then
      .ok (.err 400 "No features provided" "Please provide 60 sonar readings")
    else
      match pyGetItem data "features" with
      | .error e => .error e
      | .ok features =>
        match pyLen features with
        | .error e => .error e
        | .ok n =>
          if n ≠ 60 then
            .ok (.err 400 "Invalid input length"
              ("Expected 60 features, got " ++ toString n))
          else
            match npAsarrayFloat features with
            | .error e => .error e
            | .ok v =>
              match model with
              | none =>
                  .ok (.err 500 "Model not loaded"
                    "Please ensure sonar_model.pkl is in the correct directory")
              | some m =>
                  let pred := m.predictLabel v
                  let p := m.predictProba v
                  let rockProbability := p.2 * 100
                  let mineProbability := p.1 * 100
                  let plabel := if pred = "R" then "Rock" else "Mine"
                  .ok (.ok 200 {
                    prediction := pred
                    prediction_label := plabel
                    confidence := { rock := pyRound2 rockProbability
                                    mine := pyRound2 mineProbability }
                    message := "The object is a " ++ plabel })

/-- The `predict` handler (src/app.py lines 47-110): the `try:` body plus
the `except ValueError` (status 400) and `except Exception` (status 500)
clauses. -/
def predict (model : Option Model) (data : Json) : Resp :=
  match predictTry model data with
  | .ok r => r
  | .error .valueError => .err 400 "Invalid input values" "All features must be numeric values"
  | .error e => .err 500 "Prediction failed" (pyErrStr e)

/-- The fixed rock reference vector (src/app.py lines 122-129). -/
def rock_sample : List ℚ :=
  [0.0409, 0.0421, 0.0573, 0.013, 0.0183, 0.1019, 0.1054, 0.107,
   0.2302, 0.2259, 0.2373, 0.3323, 0.3827, 0.484, 0.6812, 0.7555,
   0.9522, 0.9826, 0.8871, 0.8268, 0.7561, 0.8217, 0.6967, 0.6444,
   0.6948, 0.8014, 0.6053, 0.6084, 0.8877, 0.8557, 0.5563, 0.2897,
   0.3638, 0.4786, 0.2908, 0.0899, 0.2043, 0.1707, 0.0407, 0.1286,
   0.1581, 0.2191, 0.1701, 0.0971, 0.2217, 0.2732, 0.1874, 0.1062,
   0.0665, 0.0405, 0.0113, 0.0028, 0.0036, 0.0105, 0.012, 0.0087,
   0.0061, 0.0061, 0.003, 0.0078]

/-- The fixed mine reference vector (src/app.py lines 132-139). -/
def mine_sample : List ℚ :=
  [0.0200, 0.0371, 0.0428, 0.0207, 0.0954, 0.0986, 0.1539, 0.1601,
   0.3109, 0.2111, 0.1609, 0.1582, 0.2238, 0.0645, 0.0660, 0.2273,
   0.3100, 0.2999, 0.5078, 0.4797, 0.5783, 0.5071, 0.4328, 0.5550,
   0.6711, 0.6415, 0.7104, 0.8080, 0.6791, 0.3857, 0.1307, 0.2604,
   0.5121, 0.7547, 0.8537, 0.8507, 0.6692, 0.6097, 0.4943, 0.2744,
   0.0510, 0.2834, 0.2825, 0.4256, 0.2641, 0.1386, 0.1051, 0.1343,
   0.0383, 0.0324, 0.0232, 0.0027, 0.0065, 0.0159, 0.0072, 0.0167,
   0.0180, 0.0084, 0.0090, 0.0032]

/-- A response from the `/api/sample/{kind}` endpoint. -/
inductive SampleResp where
  | ok (status : ℕ) (sampleType : String) (features : List ℚ) (label : String)
  | err (status : ℕ) (error : String) (message : String)
deriving DecidableEq, Repr

/-- The `get_sample` handler (src/app.py lines 117-157). -/
def get_sample (sample_type : String) : SampleResp :=
  if pyLower sample_type = "rock" then
    .ok 200 "rock" rock_sample "R"
  else if pyLower sample_type = "mine" then
    .ok 200 "mine" mine_sample "M"
  else
    .err 400 "Invalid sample type" "Use \x22rock\x22 or \x22mine\x22"

/-- The body of the `/api/health` response together with its status code. -/
structure HealthResp where
  status : ℕ
  bodyStatus : String
  model_loaded : Bool
  version : String
deriving DecidableEq, Repr

/-- The `health_check` handler (src/app.py lines 159-166).  The module-level
`model` global is written once at import time and never mutated, so it is a
parameter here. -/
def health_check (model : Option Model) : HealthResp :=
  { status := 200
    bodyStatus := "healthy"
    model_loaded := model.isSome
    version := "1.0.0" }

/-! ### Concrete inputs used by the witnesses -/

/-- A model stub answering label `R` with a probability pair summing to 1. -/
def demoModel : Model :=
  { predictLabel := fun _ => "R", predictProba := fun _ => (1 / 4, 1 - 1 / 4) }

/-- A model stub answering a label that is neither `R` nor `M`. -/
def demoModelX : Model :=
  { predictLabel := fun _ => "X", predictProba := fun _ => (1 / 4, 3 / 4) }

/-- Sixty identical numeric feature elements. -/
def demoFeatures : List Json := List.replicate 60 (Json.num (1 / 2))

/-- A request body carrying `demoFeatures`. -/
def demoBody : List (String × Json) := [("features", Json.arr demoFeatures)]

/-- The float vector `demoFeatures` converts to. -/
def demoVec : List PyFloat := List.replicate 60 (PyFloat.finite (1 / 2))

/-- Sixty elements whose first encodes positive infinity (`json.loads`
accepts the `Infinity` token); every element converts to a float. -/
def infFeatures : List Json := Json.inf false :: List.replicate 59 (Json.num 0)

/-- The float vector `infFeatures` converts to. -/
def infVec : List PyFloat := PyFloat.inf false :: List.replicate 59 (PyFloat.finite 0)

/-- A request body carrying `infFeatures`. -/
def infBody : Json := Json.obj [("features", Json.arr infFeatures)]

/-! ### Plumbing lemmas -/

/-- A successful lookup means some entry carries the key. -/
lemma any_key_of_lookup {v : Json} :
    ∀ l : List (String × Json), List.lookup "features" l = some v →
      l.any (fun p => p.1 == "features") = true := by
  intro l
  induction l with
  | nil => intro h; simp [List.lookup] at h
  | cons p t ih =>
    intro h
    obtain ⟨k, w⟩ := p
    by_cases hk : "features" = k
    · subst hk
      simp
    · have hb : (("features" : String) == k) = false := beq_false_of_ne hk
      simp only [List.lookup, hb] at h
      simp only [List.any_cons, ih h, Bool.or_true]

/-- A successful lookup in the reversed list also means some entry carries
the key in the original list. -/
lemma any_key_of_lookup_reverse {v : Json} (kvs : List (String × Json))
    (h : List.lookup "features" kvs.reverse = some v) :
    kvs.any (fun p => p.1 == "features") = true := by
  have h2 := any_key_of_lookup _ h
  rw [List.any_eq_true] at h2 ⊢
  obtain ⟨x, hx, hpx⟩ := h2
  exact ⟨x, List.mem_reverse.1 hx, hpx⟩

/-- A successful lookup in the reversed list means the list is non-empty. -/
lemma isEmpty_false_of_lookup_reverse {v : Json} (kvs : List (String × Json))
    (h : List.lookup "features" kvs.reverse = some v) :
    kvs.isEmpty = false := by
  cases kvs with
  | nil => simp [List.lookup] at h
  | cons p t => simp

/-- A body object that contains a `features` binding is truthy. -/
lemma truthy_obj_of_lookup {v : Json} (kvs : List (String × Json))
    (h : List.lookup "features" kvs.reverse = some v) :
    pyTruthy (Json.obj kvs) = true := by
  simp [pyTruthy, isEmpty_false_of_lookup_reverse kvs h]

/-- Subscripting the body by `features` returns the bound value. -/
lemma getItem_of_lookup {f : Json} (kvs : List (String × Json))
    (h : List.lookup "features" kvs.reverse = some f) :
    pyGetItem (Json.obj kvs) "features" = .ok f := by
  simp [pyGetItem, h]

/-! ### Conversion lemmas: flat scalar lists under `npAsarrayFloat` -/

/-- A scalar value has 0-d shape. -/
lemma npShape_of_scalar (x : Json) (h : jsonScalar x = true) : npShape x = .ok [] := by
  cases x <;> simp [jsonScalar] at h ⊢ <;> simp [npShape]

/-- A scalar value is its own single leaf. -/
lemma npLeaves_of_scalar (x : Json) (h : jsonScalar x = true) : npLeaves x = [x] := by
  cases x <;> simp [jsonScalar] at h ⊢ <;> simp [npLeaves]

/-- Shape discovery over a list of scalars yields all-0-d shapes. -/
lemma npShapeList_of_scalars (xs : List Json) (h : xs.all jsonScalar = true) :
    npShapeList xs = .ok (List.replicate xs.length []) := by
  induction xs with
  | nil => simp [npShapeList]
  | cons x t ih =>
      rw [List.all_cons, Bool.and_eq_true] at h
      simp [npShapeList, npShape_of_scalar x h.1, ih h.2, List.replicate_succ]

/-- The leaves of a list of scalars are the list itself. -/
lemma npLeavesList_of_scalars (xs : List Json) (h : xs.all jsonScalar = true) :
    npLeavesList xs = xs := by
  induction xs with
  | nil => simp [npLeavesList]
  | cons x t ih =>
      rw [List.all_cons, Bool.and_eq_true] at h
      simp [npLeavesList, npLeaves_of_scalar x h.1, ih h.2]

/-- All-0-d shape lists pass the homogeneity test. -/
lemma replicate_nil_all_beq (n : ℕ) :
    (List.replicate n ([] : List ℕ)).all (fun t => t == []) = true := by
  rw [List.all_eq_true]
  intro t ht
  rw [List.eq_of_mem_replicate ht]
  rfl

/-- On a flat list of scalars, `np.asarray(..., dtype=float)` is exactly the
element-wise conversion. -/
lemma npAsarrayFloat_of_scalars (xs : List Json) (h : xs.all jsonScalar = true) :
    npAsarrayFloat (Json.arr xs) = xs.mapM pyFloatOfJson := by
  have h1 := npShapeList_of_scalars xs h
  have h2 := npLeavesList_of_scalars xs h
  cases xs with
  | nil => simp [npAsarrayFloat, npShape, npShapeList, npLeaves, npLeavesList, List.mapM_nil]
  | cons x t =>
      rw [List.length_cons, List.replicate_succ] at h1
      simp [npAsarrayFloat, npShape, h1, replicate_nil_all_beq, npLeaves, h2]

/-- A list whose element-wise conversion succeeds holds only scalars: the
leaf conversion rejects lists (and dictionaries) outright. -/
lemma all_scalar_of_mapM_ok (xs : List Json) (v : List PyFloat)
    (hv : xs.mapM pyFloatOfJson = .ok v) : xs.all jsonScalar = true := by
  induction xs generalizing v with
  | nil => rfl
  | cons x t ih =>
      rw [List.mapM_cons] at hv
      cases hx : pyFloatOfJson x with
      | error e => rw [hx] at hv; simp [Bind.bind, Except.bind] at hv
      | ok f =>
          rw [hx] at hv
          cases ht : t.mapM pyFloatOfJson with
          | error e => rw [ht] at hv; simp [Bind.bind, Except.bind] at hv
          | ok vs =>
              rw [List.all_cons, Bool.and_eq_true]
              refine ⟨?_, ih vs ht⟩
              cases x <;> first
                | rfl
                | (rw [show pyFloatOfJson (Json.arr _) = .error .typeError from rfl] at hx
                   exact Except.noConfusion hx)

/-- A successful element-wise conversion is a successful array build. -/
lemma npAsarrayFloat_ok_of_mapM (xs : List Json) (v : List PyFloat)
    (hv : xs.mapM pyFloatOfJson = .ok v) :
    npAsarrayFloat (Json.arr xs) = .ok v :=
  (npAsarrayFloat_of_scalars xs (all_scalar_of_mapM_ok xs v hv)).trans hv

/-! ### Rounding lemmas -/

/-- Round-half-to-even lands within one half of the input. -/
lemma roundHalfEven_sub_le (q : ℚ) : |(roundHalfEven q : ℚ) - q| ≤ 1 / 2 := by
  have h0 : (⌊q⌋ : ℚ) ≤ q := Int.floor_le q
  have h1 : q < ⌊q⌋ + 1 := Int.lt_floor_add_one q
  unfold roundHalfEven
  split_ifs with ha hb hc <;> rw [abs_le] <;> constructor <;> push_cast <;> linarith

/-- `round(x, 2)` lands within 1/200 of the input. -/
lemma pyRound2_sub_le (x : ℚ) : |pyRound2 x - x| ≤ 1 / 200 := by
  have h := roundHalfEven_sub_le (x * 100)
  rw [abs_le] at h ⊢
  unfold pyRound2
  constructor <;> [linarith [h.1, h.2]; linarith [h.1, h.2]]

/-! ### Scenario lemmas for `predict` -/

/-- A body with no `features` binding (in particular an empty object) takes
the first validation exit. -/
lemma predict_missing_features (model : Option Model) (kvs : List (String × Json))
    (h : kvs.any (fun p => p.1 == "features") = false) :
    predict model (Json.obj kvs) =
      Resp.err 400 "No features provided" "Please provide 60 sonar readings" := by
  have hc : pyContainsKey "features" (Json.obj kvs) = .ok false := by
    simp [pyContainsKey, h]
  by_cases hne : pyTruthy (Json.obj kvs) = true
  · simp [predict, predictTry, hne, hc]
  · simp [predict, predictTry, hne]

/-- A `features` list whose length is not 60 takes the second validation
exit, whatever else the body holds and whether or not the model loaded. -/
lemma predict_invalid_length (model : Option Model) (kvs : List (String × Json))
    (xs : List Json)
    (hget : List.lookup "features" kvs.reverse = some (Json.arr xs))
    (hlen : xs.length ≠ 60) :
    predict model (Json.obj kvs) =
      Resp.err 400 "Invalid input length"
        ("Expected 60 features, got " ++ toString xs.length) := by
  simp [predict, predictTry, truthy_obj_of_lookup kvs hget, pyContainsKey,
        any_key_of_lookup_reverse kvs hget, getItem_of_lookup kvs hget, pyLen, hlen]

/-- A 60-element `features` list on which `np.asarray(..., dtype=float)`
raises `ValueError` (a scalar element that fails float conversion, or
inhomogeneous nesting) is answered by the `except ValueError` clause,
whether or not the model loaded. -/
lemma predict_nonnumeric (model : Option Model) (kvs : List (String × Json))
    (xs : List Json)
    (hget : List.lookup "features" kvs.reverse = some (Json.arr xs))
    (hlen : xs.length = 60)
    (hbad : npAsarrayFloat (Json.arr xs) = .error .valueError) :
    predict model (Json.obj kvs) =
      Resp.err 400 "Invalid input values" "All features must be numeric values" := by
  simp [predict, predictTry, truthy_obj_of_lookup kvs hget, pyContainsKey,
        any_key_of_lookup_reverse kvs hget, getItem_of_lookup kvs hget, pyLen, hlen,
        hbad]

/-- A fully convertible 60-element `features` list with the model singleton
absent reaches the model check and fails there. -/
lemma predict_model_unavailable (kvs : List (String × Json))
    (xs : List Json) (v : List PyFloat)
    (hget : List.lookup "features" kvs.reverse = some (Json.arr xs))
    (hlen : xs.length = 60)
    (hv : xs.mapM pyFloatOfJson = .ok v) :
    predict none (Json.obj kvs) =
      Resp.err 500 "Model not loaded"
        "Please ensure sonar_model.pkl is in the correct directory" := by
  simp [predict, predictTry, truthy_obj_of_lookup kvs hget, pyContainsKey,
        any_key_of_lookup_reverse kvs hget, getItem_of_lookup kvs hget, pyLen, hlen,
        npAsarrayFloat_ok_of_mapM xs v hv]

/-- A fully convertible 60-element `features` list with the model present
reaches inference and produces the success body of src/app.py lines 89-99. -/
lemma predict_success (m : Model) (kvs : List (String × Json))
    (xs : List Json) (v : List PyFloat)
    (hget : List.lookup "features" kvs.reverse = some (Json.arr xs))
    (hlen : xs.length = 60)
    (hv : xs.mapM pyFloatOfJson = .ok v) :
    predict (some m) (Json.obj kvs) =
      Resp.ok 200 {
        prediction := m.predictLabel v
        prediction_label := if m.predictLabel v = "R" then "Rock" else "Mine"
        confidence := { rock := pyRound2 ((m.predictProba v).2 * 100)
                        mine := pyRound2 ((m.predictProba v).1 * 100) }
        message := "The object is a " ++
          (if m.predictLabel v = "R" then "Rock" else "Mine") } := by
  simp [predict, predictTry, truthy_obj_of_lookup kvs hget, pyContainsKey,
        any_key_of_lookup_reverse kvs hget, getItem_of_lookup kvs hget, pyLen, hlen,
        npAsarrayFloat_ok_of_mapM xs v hv]

/-! ### Claims -/

/-- C1: For every request to Predict with a features list of exactly 60
values that all parse as numbers, when the model singleton is present, the
returned confidence.rock plus confidence.mine equals 100 within a tolerance
of 0.01, where each value is the corresponding class probability times 100
rounded to 2 decimal places (assuming the model's probability pair sums
to 1). -/
theorem predict_confidence_sum_100 (m : Model) (kvs : List (String × Json))
    (xs : List Json) (v : List PyFloat)
    (hget : List.lookup "features" kvs.reverse = some (Json.arr xs))
    (hlen : xs.length = 60)
    (hv : xs.mapM pyFloatOfJson = .ok v)
    (_hnum : ∀ x ∈ xs, ∃ q : ℚ, pyFloatOfJson x = .ok (.finite q))
    (hsum : (m.predictProba v).1 + (m.predictProba v).2 = 1) :
    ∃ r : PredictResult,
      predict (some m) (Json.obj kvs) = Resp.ok 200 r ∧
      r.confidence.rock = pyRound2 ((m.predictProba v).2 * 100) ∧
      r.confidence.mine = pyRound2 ((m.predictProba v).1 * 100) ∧
      |r.confidence.rock + r.confidence.mine - 100| ≤ 1 / 100 := by
  refine ⟨_, predict_success m kvs xs v hget hlen hv, rfl, rfl, ?_⟩
  have h1 := pyRound2_sub_le ((m.predictProba v).2 * 100)
  have h2 := pyRound2_sub_le ((m.predictProba v).1 * 100)
  rw [abs_le] at h1 h2 ⊢
  constructor <;> simp only [Confidence.mk.injEq] <;> linarith [h1.1, h1.2, h2.1, h2.2]

/-- Witness for C1 at a concrete model and input. -/
theorem predict_confidence_sum_100_witness :
    ∃ r : PredictResult,
      predict (some demoModel) (Json.obj demoBody) = Resp.ok 200 r ∧
      r.confidence.rock = pyRound2 ((demoModel.predictProba demoVec).2 * 100) ∧
      r.confidence.mine = pyRound2 ((demoModel.predictProba demoVec).1 * 100) ∧
      |r.confidence.rock + r.confidence.mine - 100| ≤ 1 / 100 :=
  predict_confidence_sum_100 demoModel demoBody demoFeatures demoVec rfl rfl rfl
    (fun x hx => ⟨1 / 2, by rw [List.eq_of_mem_replicate hx]; rfl⟩) (by simp [demoModel])

/-- C2 counterexample: a 60-element features list whose first element encodes
positive infinity passes float conversion (`float` and `np.asarray` accept
non-finite values), so with the model singleton absent the request reaches
the model check and returns the 500 `Model not loaded` response — not the
`NonNumericInput` 400 response the claim requires for every element that
does not parse as a *finite* real number. -/
theorem predict_inf_cex :
    predict none infBody =
      Resp.err 500 "Model not loaded"
        "Please ensure sonar_model.pkl is in the correct directory" ∧
    predict none infBody ≠
      Resp.err 400 "Invalid input values" "All features must be numeric values" ∧
    (predict none infBody).status ≠ 400 := by
  have h : predict none (Json.obj [("features", Json.arr infFeatures)]) =
      Resp.err 500 "Model not loaded"
        "Please ensure sonar_model.pkl is in the correct directory" :=
    predict_model_unavailable [("features", Json.arr infFeatures)] infFeatures infVec
      rfl rfl rfl
  exact ⟨h, by rw [show infBody = Json.obj [("features", Json.arr infFeatures)] from rfl, h]; decide,
         by rw [show infBody = Json.obj [("features", Json.arr infFeatures)] from rfl, h]; decide⟩

/-- C2 (amended): for a present features list of length 60, an input on
which the numeric conversion raises `ValueError` — a scalar element that
does not parse as a number, or inhomogeneously nested elements — fails the
request with `NonNumericInput` and status 400; but an element encoding an
infinite or NaN value is *not* rejected by validation — it converts
successfully, and with the model singleton absent such a request instead
reaches the model check and fails with `ModelUnavailable`, status 500. -/
theorem predict_nonnumeric_vs_nonfinite :
    (∀ (model : Option Model) (kvs : List (String × Json)) (xs : List Json),
        List.lookup "features" kvs.reverse = some (Json.arr xs) →
        xs.length = 60 →
        npAsarrayFloat (Json.arr xs) = .error .valueError →
        predict model (Json.obj kvs) =
          Resp.err 400 "Invalid input values" "All features must be numeric values") ∧
    (∀ (kvs : List (String × Json)) (xs : List Json) (v : List PyFloat),
        List.lookup "features" kvs.reverse = some (Json.arr xs) →
        xs.length = 60 →
        xs.mapM pyFloatOfJson = .ok v →
        (PyFloat.inf false ∈ v ∨ PyFloat.inf true ∈ v ∨ PyFloat.nan ∈ v) →
        predict none (Json.obj kvs) =
          Resp.err 500 "Model not loaded"
            "Please ensure sonar_model.pkl is in the correct directory") :=
  ⟨fun model kvs xs hget hlen hbad => predict_nonnumeric model kvs xs hget hlen hbad,
   fun kvs xs v hget hlen hv _ => predict_model_unavailable kvs xs v hget hlen hv⟩

/-- Witness for the amended C2 at concrete inputs: a non-numeric string is
rejected as `NonNumericInput`, while an infinity reaches the model check. -/
theorem predict_nonnumeric_vs_nonfinite_witness :
    predict none (Json.obj [("features", Json.arr (List.replicate 60 (Json.str "abc")))]) =
      Resp.err 400 "Invalid input values" "All features must be numeric values" ∧
    predict none (Json.obj [("features", Json.arr infFeatures)]) =
      Resp.err 500 "Model not loaded"
        "Please ensure sonar_model.pkl is in the correct directory" :=
  ⟨predict_nonnumeric_vs_nonfinite.1 none _ _ rfl rfl
     ((npAsarrayFloat_of_scalars (List.replicate 60 (Json.str "abc")) rfl).trans rfl),
   predict_nonnumeric_vs_nonfinite.2 _ _ infVec rfl rfl rfl
     (Or.inl (List.mem_cons_self _ _))⟩

/-- C3: When the model singleton is absent, Predict on an input that fails
validation (missing features, wrong length, or non-numeric element) still
returns the corresponding client-error validation failure, and Predict on a
fully valid 60-number input returns ModelUnavailable with server-error
status 500; the model-presence check occurs after all three validation steps
(each of which answers without consulting the model) and before any
inference call (no inference operation is invocable when the singleton is
absent). -/
theorem predict_model_absent_spec :
    (∀ kvs : List (String × Json), kvs.any (fun p => p.1 == "features") = false →
        predict none (Json.obj kvs) =
          Resp.err 400 "No features provided" "Please provide 60 sonar readings") ∧
    (∀ (kvs : List (String × Json)) (xs : List Json),
        List.lookup "features" kvs.reverse = some (Json.arr xs) →
        xs.length ≠ 60 →
        predict none (Json.obj kvs) =
          Resp.err 400 "Invalid input length"
            ("Expected 60 features, got " ++ toString xs.length)) ∧
    (∀ (kvs : List (String × Json)) (xs : List Json),
        List.lookup "features" kvs.reverse = some (Json.arr xs) →
        xs.length = 60 →
        npAsarrayFloat (Json.arr xs) = .error .valueError →
        predict none (Json.obj kvs) =
          Resp.err 400 "Invalid input values" "All features must be numeric values") ∧
    (∀ (kvs : List (String × Json)) (xs : List Json) (v : List PyFloat),
        List.lookup "features" kvs.reverse = some (Json.arr xs) →
        xs.length = 60 →
        xs.mapM pyFloatOfJson = .ok v →
        predict none (Json.obj kvs) =
          Resp.err 500 "Model not loaded"
            "Please ensure sonar_model.pkl is in the correct directory") :=
  ⟨fun kvs h => predict_missing_features none kvs h,
   fun kvs xs hget hlen => predict_invalid_length none kvs xs hget hlen,
   fun kvs xs hget hlen hbad => predict_nonnumeric none kvs xs hget hlen hbad,
   fun kvs xs v hget hlen hv => predict_model_unavailable kvs xs v hget hlen hv⟩

/-- Witness for C3 at concrete inputs for each of the four branches. -/
theorem predict_model_absent_spec_witness :
    predict none (Json.obj [("other", Json.num 1)]) =
      Resp.err 400 "No features provided" "Please provide 60 sonar readings" ∧
    predict none (Json.obj [("features", Json.arr [Json.num 0, Json.num 0, Json.num 0])]) =
      Resp.err 400 "Invalid input length" ("Expected 60 features, got " ++ toString 3) ∧
    predict none (Json.obj [("features", Json.arr (List.replicate 60 (Json.str "oops")))]) =
      Resp.err 400 "Invalid input values" "All features must be numeric values" ∧
    predict none (Json.obj demoBody) =
      Resp.err 500 "Model not loaded"
        "Please ensure sonar_model.pkl is in the correct directory" :=
  ⟨predict_model_absent_spec.1 _ (by decide),
   predict_model_absent_spec.2.1 _ [Json.num 0, Json.num 0, Json.num 0] rfl (by decide),
   predict_model_absent_spec.2.2.1 _ (List.replicate 60 (Json.str "oops")) rfl rfl
     ((npAsarrayFloat_of_scalars (List.replicate 60 (Json.str "oops")) rfl).trans rfl),
   predict_model_absent_spec.2.2.2 demoBody demoFeatures demoVec rfl rfl rfl⟩

/-- C4: For every request to Predict whose features field is present as a
list but whose length differs from 60, the request fails with InvalidLength
and status 400, the error message states both the expected count 60 and the
actual count received, and no prediction result is produced. -/
theorem predict_invalid_length_spec (model : Option Model)
    (kvs : List (String × Json)) (xs : List Json)
    (hget : List.lookup "features" kvs.reverse = some (Json.arr xs))
    (hlen : xs.length ≠ 60) :
    predict model (Json.obj kvs) =
      Resp.err 400 "Invalid input length"
        ("Expected 60 features, got " ++ toString xs.length) ∧
    ∀ (s : ℕ) (r : PredictResult), predict model (Json.obj kvs) ≠ Resp.ok s r := by
  refine ⟨predict_invalid_length model kvs xs hget hlen, ?_⟩
  intro s r
  rw [predict_invalid_length model kvs xs hget hlen]
  exact fun h => Resp.noConfusion h

/-- Witness for C4: lists of length 0, 3 and 61 each take the InvalidLength
exit, with the actual count in the message. -/
theorem predict_invalid_length_spec_witness :
    (predict none (Json.obj [("features", Json.arr [])]) =
       Resp.err 400 "Invalid input length" ("Expected 60 features, got " ++ toString (0 : ℕ)) ∧
     ∀ (s : ℕ) (r : PredictResult),
       predict none (Json.obj [("features", Json.arr [])]) ≠ Resp.ok s r) ∧
    predict none (Json.obj [("features", Json.arr (List.replicate 61 (Json.num 0)))]) =
      Resp.err 400 "Invalid input length" ("Expected 60 features, got " ++ toString (61 : ℕ)) :=
  ⟨predict_invalid_length_spec none [("features", Json.arr [])] [] rfl (by decide),
   (predict_invalid_length_spec none [("features", Json.arr (List.replicate 61 (Json.num 0)))]
     (List.replicate 61 (Json.num 0)) rfl (by decide)).1⟩

/-- C5: For every request to Predict whose body lacks the features key
(including an empty or null body), the request fails with MissingInput and
status 400; this presence check fires whatever the values bound to the other
keys are, before the length and numeric checks could raise. -/
theorem predict_missing_input_spec :
    (∀ (model : Option Model) (kvs : List (String × Json)),
        kvs.any (fun p => p.1 == "features") = false →
        predict model (Json.obj kvs) =
          Resp.err 400 "No features provided" "Please provide 60 sonar readings") ∧
    (∀ model : Option Model,
        predict model (Json.obj []) =
          Resp.err 400 "No features provided" "Please provide 60 sonar readings") ∧
    (∀ model : Option Model,
        predict model Json.null =
          Resp.err 400 "No features provided" "Please provide 60 sonar readings") :=
  ⟨fun model kvs h => predict_missing_features model kvs h,
   fun model => predict_missing_features model [] rfl,
   fun _ => rfl⟩

/-- Witness for C5: a body whose only key is not `features` — bound,
moreover, to an invalid-length list, showing the presence check fires
first. -/
theorem predict_missing_input_spec_witness :
    predict none (Json.obj [("data", Json.arr [Json.str "x"])]) =
      Resp.err 400 "No features provided" "Please provide 60 sonar readings" :=
  predict_missing_input_spec.1 none [("data", Json.arr [Json.str "x"])] (by decide)

/-- C6: For every kind string, GetSample(kind) with kind equal to "rock" or
"mine" under case-insensitive comparison returns status 200 with the
corresponding fixed reference vector tagged with its true label ('R' for
rock, 'M' for mine) — the same result on every call, `get_sample` being a
pure function of its argument — and for any other kind it fails with
InvalidSampleType and status 400. -/
theorem get_sample_spec (s : String) :
    (pyLower s = "rock" → get_sample s = .ok 200 "rock" rock_sample "R") ∧
    (pyLower s = "mine" → get_sample s = .ok 200 "mine" mine_sample "M") ∧
    (pyLower s ≠ "rock" → pyLower s ≠ "mine" →
      get_sample s = .err 400 "Invalid sample type" "Use \x22rock\x22 or \x22mine\x22") := by
  refine ⟨fun h => ?_, fun h => ?_, fun h1 h2 => ?_⟩
  · rw [get_sample, if_pos h]
  · rw [get_sample, if_neg (by rw [h]; decide), if_pos h]
  · rw [get_sample, if_neg h1, if_neg h2]

/-- Witness for C6 on the three branches, with mixed-case kinds. -/
theorem get_sample_spec_witness :
    get_sample "RoCk" = .ok 200 "rock" rock_sample "R" ∧
    get_sample "MINE" = .ok 200 "mine" mine_sample "M" ∧
    get_sample "other" = .err 400 "Invalid sample type" "Use \x22rock\x22 or \x22mine\x22" :=
  ⟨(get_sample_spec "RoCk").1 (by decide),
   (get_sample_spec "MINE").2.1 (by decide),
   (get_sample_spec "other").2.2 (by decide) (by decide)⟩

set_option maxHeartbeats 2000000 in
/-- C7: Both fixed reference Feature Vectors returned by GetSample contain
exactly 60 elements, and every element lies in the closed interval [0,1]. -/
theorem samples_length_and_range :
    rock_sample.length = 60 ∧ mine_sample.length = 60 ∧
    (∀ q ∈ rock_sample, 0 ≤ q ∧ q ≤ 1) ∧
    (∀ q ∈ mine_sample, 0 ≤ q ∧ q ≤ 1) := by
  refine ⟨rfl, rfl, ?_, ?_⟩ <;>
    norm_num [rock_sample, mine_sample, List.forall_mem_cons]

/-- Witness for C7: the bound instantiated at the first rock element. -/
theorem samples_length_and_range_witness :
    (0.0409 : ℚ) ∈ rock_sample ∧ (0 ≤ (0.0409 : ℚ) ∧ (0.0409 : ℚ) ≤ 1) :=
  ⟨by simp [rock_sample], samples_length_and_range.2.2.1 0.0409 (by simp [rock_sample])⟩

/-- C8: HealthCheck() always returns status 200 with status field "healthy",
the fixed version string "1.0.0", and a model_loaded boolean that is true
exactly when the startup model load succeeded (the singleton is present) and
false otherwise; being a pure function of the once-written singleton, it is
constant for the life of the process and never fails. -/
theorem health_check_spec (model : Option Model) :
    health_check model =
      { status := 200, bodyStatus := "healthy",
        model_loaded := model.isSome, version := "1.0.0" } ∧
    ((health_check model).model_loaded = true ↔ model ≠ none) := by
  refine ⟨rfl, ?_⟩
  simp [health_check, Option.isSome_iff_ne_none]

/-- Witness for C8 with the singleton present. -/
theorem health_check_spec_witness :
    health_check (some demoModel) =
      { status := 200, bodyStatus := "healthy",
        model_loaded := true, version := "1.0.0" } ∧
    ((health_check (some demoModel)).model_loaded = true ↔ some demoModel ≠ none) :=
  health_check_spec (some demoModel)

/-- C9: If the features key is present but its value is not a sized value
(for example a number, null, or a boolean), Predict does not return any of
the three client-error validations; the `TypeError` from taking the length
falls through to the generic handler and is reported as the generic server
error with status 500. -/
theorem predict_unsized_features_spec (model : Option Model) (f : Json)
    (h : pyHasLen f = false) :
    predict model (Json.obj [("features", f)]) =
      Resp.err 500 "Prediction failed" (pyErrStr .typeError) ∧
    (predict model (Json.obj [("features", f)])).status = 500 := by
  cases f with
  | null => exact ⟨rfl, rfl⟩
  | bool b => exact ⟨rfl, rfl⟩
  | num q => exact ⟨rfl, rfl⟩
  | inf n => exact ⟨rfl, rfl⟩
  | nan => exact ⟨rfl, rfl⟩
  | str s => simp [pyHasLen] at h
  | arr xs => simp [pyHasLen] at h
  | obj kvs => simp [pyHasLen] at h

/-- Witness for C9 at a numeric features value. -/
theorem predict_unsized_features_spec_witness :
    predict none (Json.obj [("features", Json.num 5)]) =
      Resp.err 500 "Prediction failed" (pyErrStr .typeError) ∧
    (predict none (Json.obj [("features", Json.num 5)])).status = 500 :=
  predict_unsized_features_spec none (Json.num 5) rfl

/-- C10: On a successful Predict, prediction_label is "Rock" exactly when
the model's predicted class equals the string 'R', and "Mine" for every
other predicted class value whatsoever (not only 'M'); the confidence
mapping is hard-coded so that confidence.rock is taken from probability
index 1 and confidence.mine from probability index 0 of the model's
probability output, and the message field names the same label as
prediction_label. -/
theorem predict_success_shape (m : Model) (kvs : List (String × Json))
    (xs : List Json) (v : List PyFloat)
    (hget : List.lookup "features" kvs.reverse = some (Json.arr xs))
    (hlen : xs.length = 60)
    (hv : xs.mapM pyFloatOfJson = .ok v) :
    ∃ r : PredictResult,
      predict (some m) (Json.obj kvs) = Resp.ok 200 r ∧
      r.prediction = m.predictLabel v ∧
      (r.prediction_label = "Rock" ↔ m.predictLabel v = "R") ∧
      (m.predictLabel v ≠ "R" → r.prediction_label = "Mine") ∧
      r.confidence.rock = pyRound2 ((m.predictProba v).2 * 100) ∧
      r.confidence.mine = pyRound2 ((m.predictProba v).1 * 100) ∧
      r.message = "The object is a " ++ r.prediction_label := by
  refine ⟨_, predict_success m kvs xs v hget hlen hv, rfl, ?_, ?_, rfl, rfl, rfl⟩
  · by_cases hR : m.predictLabel v = "R"
    · simp [hR]
    · simp only [if_neg hR]
      exact iff_of_false (by decide) hR
  · intro hR
    simp only [if_neg hR]

/-- Witness for C10 with a model whose label is neither R nor M, so the
label falls to "Mine". -/
theorem predict_success_shape_witness :
    ∃ r : PredictResult,
      predict (some demoModelX) (Json.obj demoBody) = Resp.ok 200 r ∧
      r.prediction = demoModelX.predictLabel demoVec ∧
      (r.prediction_label = "Rock" ↔ demoModelX.predictLabel demoVec = "R") ∧
      (demoModelX.predictLabel demoVec ≠ "R" → r.prediction_label = "Mine") ∧
      r.confidence.rock = pyRound2 ((demoModelX.predictProba demoVec).2 * 100) ∧
      r.confidence.mine = pyRound2 ((demoModelX.predictProba demoVec).1 * 100) ∧
      r.message = "The object is a " ++ r.prediction_label :=
  predict_success_shape demoModelX demoBody demoFeatures demoVec rfl rfl rfl

end Sonar
